import Mathlib

/-!
# Cooling / aquarium controller (`src/main.cpp`)

A shallow embedding of the Arduino sketch: the global variables become the
fields of `State`, every function of the sketch becomes a function on `State`
that takes the values read from the hardware during the call as arguments
(temperature reading, float-switch levels, `millis()`), and the writes to the
output pins, the serial port and the OLED are recorded in the state.
-/

namespace CoolingAquarium

/-! ## Machine values -/

/-- Value of a C `float`: a finite number (every finite float is a rational),
an infinity, or NaN. Only comparisons are performed on floats by the sketch,
and those are exact. -/
inductive CFloat where
  | finite (v : ℚ)
  | posInf
  | negInf
  | nan
  deriving DecidableEq

/-- IEEE comparison `a <= b` on floats: false whenever an operand is NaN. -/
def CFloat.le : CFloat → CFloat → Bool
  | .nan, _ => false
  | _, .nan => false
  | .negInf, _ => true
  | _, .posInf => true
  | .finite x, .finite y => decide (x ≤ y)
  | .finite _, .negInf => false
  | .posInf, .finite _ => false
  | .posInf, .negInf => false

/-- IEEE comparison `a >= b` on floats. -/
def CFloat.ge (a b : CFloat) : Bool := CFloat.le b a

/-- Digital level of a pin. -/
inductive PinLevel where
  | LOW
  | HIGH
  deriving DecidableEq, Repr

open PinLevel

/-- Number of values of an `unsigned long` (32 bits on the target boards). -/
def ULONG_MOD : Nat := 2 ^ 32

/-- Subtraction `a - b` of two `unsigned long` values, wrapping modulo `2^32`. -/
def ulSub (a b : Nat) : Nat := (a % ULONG_MOD + (ULONG_MOD - b % ULONG_MOD)) % ULONG_MOD

/-! ## Constants of the sketch -/

/-- Source: `const float TEMP_ON_THRESHOLD = 26.0;` -/
def TEMP_ON_THRESHOLD : CFloat := .finite 26

/-- Source: `const float TEMP_OFF_THRESHOLD = 24.5;` -/
def TEMP_OFF_THRESHOLD : CFloat := .finite 24.5

/-- Source: `const unsigned long MAX_PUMP_RUNTIME_MS = 5000;` -/
def MAX_PUMP_RUNTIME_MS : Nat := 5000

/-- Value that `DallasTemperature::getTempCByIndex` returns when the read fails
(the library constant `DEVICE_DISCONNECTED_C`, -127 degrees). -/
def DEVICE_DISCONNECTED_C : CFloat := .finite (-127)

/-! ## Recorded output -/

/-- One call on a text sink (`Serial` or the OLED `display`). -/
inductive TextOp where
  | print (s : String)
  | printFloat (f : CFloat)
  | println (s : String)
  | clearDisplay
  | setTextSize (n : Nat)
  | setTextColor (withBackground : Bool)
  | setCursor (x y : Nat)
  | display
  deriving DecidableEq

/-! ## State -/

/-- Global variables of the sketch, the level last written to each output pin,
and the calls made so far on the serial port and on the display. -/
structure State where
  displayAvailable : Bool
  fanOn : Bool
  pumpOn : Bool
  pumpLockout : Bool
  pumpStartTime : Nat
  currentTempC : CFloat
  fanPin : PinLevel
  pumpPin : PinLevel
  serial : List TextOp
  oled : List TextOp
  deriving DecidableEq

/-- Values of the globals at program start (their initialisers); the output
latches are at their reset level. -/
def globals : State :=
  { displayAvailable := false
    fanOn := false
    pumpOn := false
    pumpLockout := false
    pumpStartTime := 0
    currentTempC := .finite 0
    fanPin := LOW
    pumpPin := LOW
    serial := []
    oled := [] }

/-- Values read from the hardware during one pass of `loop()`. -/
structure CycleInput where
  tempC : CFloat
  float1 : PinLevel
  float2 : PinLevel
  millis : Nat
  deriving DecidableEq

/-- Calls on `Serial`, appended to the record of the serial port. -/
def serialOut (ops : List TextOp) (s : State) : State :=
  { s with serial := s.serial ++ ops }

/-- Calls on `display`, appended to the record of the OLED. -/
def oledOut (ops : List TextOp) (s : State) : State :=
  { s with oled := s.oled ++ ops }

/-! ## Functions of the sketch -/

/-- Source: `setup()`; `displayFound` is the result of `display.begin(...)`
(the `delay(1000)` after the splash text only passes time). -/
def setup (displayFound : Bool) (s : State) : State :=
  let s := { s with fanPin := LOW }
  let s := { s with pumpPin := LOW }
  let s :=
    if displayFound then
      oledOut [.clearDisplay, .setTextSize 1, .setTextColor false, .setCursor 0 0,
        .println "Display Initialized", .display] { s with displayAvailable := true }
    else
      serialOut [.println "OLED display not found, continuing without it."] s
  serialOut [.println "System Initialized. Monitoring started."] s

/-- Source: `checkTemperature()`; `reading` is what
`tempSensor.getTempCByIndex(0)` returns. -/
def checkTemperature (reading : CFloat) (s : State) : State :=
  let s := { s with currentTempC := reading }
  let s := serialOut [.print "Temperature: ", .printFloat s.currentTempC, .println " °C"] s
  if !s.fanOn && s.currentTempC.ge TEMP_ON_THRESHOLD then
    serialOut [.println "Fan ON"] { s with fanPin := HIGH, fanOn := true }
  else if s.fanOn && s.currentTempC.le TEMP_OFF_THRESHOLD then
    serialOut [.println "Fan OFF"] { s with fanPin := LOW, fanOn := false }
  else
    s

/-- Source: `floatSwitchTriggered` in `handlePump()`: both switch inputs read LOW. -/
def floatSwitchTriggered (float1 float2 : PinLevel) : Bool :=
  decide (float1 = LOW) && decide (float2 = LOW)

/-- Source: `handlePump()`; `float1`, `float2` are the levels read from the two
float-switch pins and `now` is the value returned by `millis()`. -/
def handlePump (float1 float2 : PinLevel) (now : Nat) (s : State) : State :=
  if s.pumpLockout then
    serialOut [.println "Pump locked out. Awaiting manual reset."] s
  else if floatSwitchTriggered float1 float2 then
    if !s.pumpOn then
      serialOut [.println "Pump ON"] { s with pumpPin := HIGH, pumpOn := true, pumpStartTime := now }
    else if ulSub now s.pumpStartTime > MAX_PUMP_RUNTIME_MS then
      serialOut [.println "Pump OFF - Safety Lockout Triggered"]
        { s with pumpPin := LOW, pumpOn := false, pumpLockout := true }
    else
      s
  else
    if s.pumpOn then
      serialOut [.println "Pump OFF"] { s with pumpPin := LOW, pumpOn := false }
    else
      s

/-- Source: `updateDisplay()`. -/
def updateDisplay (s : State) : State :=
  if !s.displayAvailable then s
  else
    let ops : List TextOp :=
      [.clearDisplay, .setCursor 0 0, .print "Temp: ", .printFloat s.currentTempC, .println " C",
       .print "Fan: ", .println (if s.fanOn then "ON" else "OFF"),
       .print "Pump: ", .println (if s.pumpOn then "ON" else "OFF")]
    let alert : List TextOp :=
      if s.pumpLockout then [.setTextColor true, .println "*** LOCKOUT ***", .println "CHECK TANK"]
      else []
    oledOut (ops ++ alert ++ [.display]) s

/-- Source: `loop()`, one cycle (the final `delay(1000)` only passes time). -/
def loop (i : CycleInput) (s : State) : State :=
  updateDisplay (handlePump i.float1 i.float2 i.millis (checkTemperature i.tempC s))

/-- State reached from `s` by the cycles of `loop()` fed with `ins`, in order. -/
def runLoop (s : State) (ins : List CycleInput) : State :=
  ins.foldl (fun st i => loop i st) s

/-- Pump state of the specification, read off the flags. -/
inductive PumpState where
  | Idle
  | Running (startedAt : Nat)
  | LockedOut
  deriving DecidableEq

/-- Abstraction of the pump flags to the three pump states: the lockout flag
takes precedence, as in `handlePump()`. -/
def pumpState (s : State) : PumpState :=
  if s.pumpLockout then .LockedOut
  else if s.pumpOn then .Running s.pumpStartTime
  else .Idle

/-- The pump is running since the clock value `t0`: flag set, no lockout,
start time `t0`, pump pin HIGH. -/
def PumpRunning (s : State) (t0 : Nat) : Prop :=
  s.pumpOn = true ∧ s.pumpLockout = false ∧ s.pumpStartTime = t0 ∧ s.pumpPin = HIGH

/-- The pump is locked out and switched off: lockout flag set, `pumpOn` clear,
pump pin LOW. -/
def PumpLocked (s : State) : Prop :=
  s.pumpOn = false ∧ s.pumpLockout = true ∧ s.pumpPin = LOW

/-- Values of `fanOn` after each of the calls of `checkTemperature()` fed with
`readings`, in order. -/
def fanTrace (s : State) : List CFloat → List Bool
  | [] => []
  | r :: rs => (checkTemperature r s).fanOn :: fanTrace (checkTemperature r s) rs

/-- State reached from `s` by the calls of `checkTemperature()` fed with
`readings`, in order. -/
def runFan (s : State) (readings : List CFloat) : State :=
  readings.foldl (fun st r => checkTemperature r st) s

/-- Reading outside the open band between the two thresholds: not
`24.5 < t < 26.0`. -/
def outsideBand (t : ℚ) : Bool := !(decide (24.5 < t) && decide (t < 26.0))

/-- Flags, start time and pin levels of the two controllers:
`fanOn`, `pumpOn`, `pumpLockout`, `pumpStartTime`, fan pin, pump pin. -/
def controlFields (s : State) : Bool × Bool × Bool × Nat × PinLevel × PinLevel :=
  (s.fanOn, s.pumpOn, s.pumpLockout, s.pumpStartTime, s.fanPin, s.pumpPin)

/-- First cycle of the sample run of scenario B: both float switches LOW at
1000 ms. -/
def scenarioBFirst : CycleInput := ⟨.finite 25, LOW, LOW, 1000⟩

/-- Remaining nine cycles of the sample run of scenario B, one every 1000 ms
with both float switches LOW. -/
def scenarioBRest : List CycleInput :=
  [⟨.finite 25, LOW, LOW, 2000⟩, ⟨.finite 25, LOW, LOW, 3000⟩, ⟨.finite 25, LOW, LOW, 4000⟩,
   ⟨.finite 25, LOW, LOW, 5000⟩, ⟨.finite 25, LOW, LOW, 6000⟩, ⟨.finite 25, LOW, LOW, 7000⟩,
   ⟨.finite 25, LOW, LOW, 8000⟩, ⟨.finite 25, LOW, LOW, 9000⟩, ⟨.finite 25, LOW, LOW, 10000⟩]

/-! ## Frame lemmas -/

@[simp]
theorem serialOut_fanOn (ops : List TextOp) (s : State) :
    (serialOut ops s).fanOn = s.fanOn := rfl
@[simp]
theorem serialOut_fanPin (ops : List TextOp) (s : State) :
    (serialOut ops s).fanPin = s.fanPin := rfl
@[simp]
theorem serialOut_pumpOn (ops : List TextOp) (s : State) :
    (serialOut ops s).pumpOn = s.pumpOn := rfl
@[simp]
theorem serialOut_pumpLockout (ops : List TextOp) (s : State) :
    (serialOut ops s).pumpLockout = s.pumpLockout := rfl
@[simp]
theorem serialOut_pumpStartTime (ops : List TextOp) (s : State) :
    (serialOut ops s).pumpStartTime = s.pumpStartTime := rfl
@[simp]
theorem serialOut_pumpPin (ops : List TextOp) (s : State) :
    (serialOut ops s).pumpPin = s.pumpPin := rfl
@[simp]
theorem serialOut_currentTempC (ops : List TextOp) (s : State) :
    (serialOut ops s).currentTempC = s.currentTempC := rfl
@[simp]
theorem serialOut_displayAvailable (ops : List TextOp) (s : State) :
    (serialOut ops s).displayAvailable = s.displayAvailable := rfl
@[simp]
theorem serialOut_serial (ops : List TextOp) (s : State) :
    (serialOut ops s).serial = s.serial ++ ops := rfl

theorem checkTemperature_pumpOn (r : CFloat) (s : State) :
    (checkTemperature r s).pumpOn = s.pumpOn := by
  unfold checkTemperature; dsimp only; split_ifs <;> rfl

theorem checkTemperature_pumpLockout (r : CFloat) (s : State) :
    (checkTemperature r s).pumpLockout = s.pumpLockout := by
  unfold checkTemperature; dsimp only; split_ifs <;> rfl

theorem checkTemperature_pumpStartTime (r : CFloat) (s : State) :
    (checkTemperature r s).pumpStartTime = s.pumpStartTime := by
  unfold checkTemperature; dsimp only; split_ifs <;> rfl

theorem checkTemperature_pumpPin (r : CFloat) (s : State) :
    (checkTemperature r s).pumpPin = s.pumpPin := by
  unfold checkTemperature; dsimp only; split_ifs <;> rfl

theorem updateDisplay_pumpOn (s : State) : (updateDisplay s).pumpOn = s.pumpOn := by
  unfold updateDisplay; split_ifs <;> rfl

theorem updateDisplay_pumpLockout (s : State) :
    (updateDisplay s).pumpLockout = s.pumpLockout := by
  unfold updateDisplay; split_ifs <;> rfl

theorem updateDisplay_pumpStartTime (s : State) :
    (updateDisplay s).pumpStartTime = s.pumpStartTime := by
  unfold updateDisplay; split_ifs <;> rfl

theorem updateDisplay_pumpPin (s : State) : (updateDisplay s).pumpPin = s.pumpPin := by
  unfold updateDisplay; split_ifs <;> rfl

theorem runLoop_cons (s : State) (i : CycleInput) (ins : List CycleInput) :
    runLoop s (i :: ins) = runLoop (loop i s) ins := rfl

theorem runLoop_append (s : State) (xs ys : List CycleInput) :
    runLoop s (xs ++ ys) = runLoop (runLoop s xs) ys := by
  simp [runLoop, List.foldl_append]

/-- In lockout `handlePump()` only prints the lockout line. -/
theorem handlePump_locked (s : State) (h : s.pumpLockout = true) (f1 f2 : PinLevel) (now : Nat) :
    handlePump f1 f2 now s =
      serialOut [.println "Pump locked out. Awaiting manual reset."] s := by
  unfold handlePump; rw [if_pos h]

/-- One cycle of `loop()` in lockout keeps the pump fields. -/
theorem loop_locked (s : State) (h : s.pumpLockout = true) (i : CycleInput) :
    (loop i s).pumpLockout = true ∧ (loop i s).pumpOn = s.pumpOn ∧
      (loop i s).pumpStartTime = s.pumpStartTime ∧ (loop i s).pumpPin = s.pumpPin := by
  have hc : (checkTemperature i.tempC s).pumpLockout = true := by
    rw [checkTemperature_pumpLockout]; exact h
  unfold loop
  rw [updateDisplay_pumpLockout, updateDisplay_pumpOn, updateDisplay_pumpStartTime,
    updateDisplay_pumpPin, handlePump_locked _ hc]
  simp [checkTemperature_pumpOn, checkTemperature_pumpStartTime, checkTemperature_pumpPin, hc]

/-- The pump fields after a cycle of `loop()` are those `handlePump()` computes
from the state at the start of the cycle. -/
theorem loop_pump (i : CycleInput) (s : State) :
    (loop i s).pumpOn = (handlePump i.float1 i.float2 i.millis s).pumpOn ∧
    (loop i s).pumpLockout = (handlePump i.float1 i.float2 i.millis s).pumpLockout ∧
    (loop i s).pumpStartTime = (handlePump i.float1 i.float2 i.millis s).pumpStartTime ∧
    (loop i s).pumpPin = (handlePump i.float1 i.float2 i.millis s).pumpPin := by
  unfold loop
  rw [updateDisplay_pumpLockout, updateDisplay_pumpOn, updateDisplay_pumpStartTime,
    updateDisplay_pumpPin]
  unfold handlePump
  simp only [checkTemperature_pumpLockout, checkTemperature_pumpOn,
    checkTemperature_pumpStartTime]
  split_ifs <;>
    simp [checkTemperature_pumpLockout, checkTemperature_pumpOn,
      checkTemperature_pumpStartTime, checkTemperature_pumpPin]

theorem ulSub_of_le (a b : Nat) (hb : b ≤ a) (ha : a < ULONG_MOD) : ulSub a b = a - b := by
  unfold ulSub
  unfold ULONG_MOD at *
  norm_num at *
  omega

/-! ### Single steps of the pump -/

theorem handlePump_start (s : State) (f1 f2 : PinLevel) (now : Nat)
    (hon : s.pumpOn = false) (hl : s.pumpLockout = false)
    (hf : floatSwitchTriggered f1 f2 = true) :
    PumpRunning (handlePump f1 f2 now s) now := by
  unfold handlePump PumpRunning
  simp [hon, hl, hf]

theorem handlePump_keep (s : State) (f1 f2 : PinLevel) (now t0 : Nat)
    (hr : PumpRunning s t0) (hf : floatSwitchTriggered f1 f2 = true)
    (ht : ulSub now t0 ≤ MAX_PUMP_RUNTIME_MS) :
    handlePump f1 f2 now s = s := by
  obtain ⟨h1, h2, h3, -⟩ := hr
  unfold handlePump
  simp [h1, h2, h3, hf, Nat.not_lt.mpr ht]

theorem handlePump_trip (s : State) (f1 f2 : PinLevel) (now t0 : Nat)
    (hr : PumpRunning s t0) (hf : floatSwitchTriggered f1 f2 = true)
    (ht : ulSub now t0 > MAX_PUMP_RUNTIME_MS) :
    PumpLocked (handlePump f1 f2 now s) := by
  obtain ⟨h1, h2, h3, -⟩ := hr
  unfold handlePump PumpLocked
  simp [h1, h2, h3, hf, ht]

theorem handlePump_stop (s : State) (f1 f2 : PinLevel) (now : Nat)
    (hon : s.pumpOn = true) (hl : s.pumpLockout = false)
    (hf : floatSwitchTriggered f1 f2 = false) :
    (handlePump f1 f2 now s).pumpOn = false ∧ (handlePump f1 f2 now s).pumpLockout = false ∧
      (handlePump f1 f2 now s).pumpPin = LOW := by
  unfold handlePump
  simp [hon, hl, hf]

theorem loop_start (s : State) (i : CycleInput)
    (hon : s.pumpOn = false) (hl : s.pumpLockout = false)
    (hf : floatSwitchTriggered i.float1 i.float2 = true) :
    PumpRunning (loop i s) i.millis := by
  obtain ⟨e1, e2, e3, e4⟩ := loop_pump i s
  obtain ⟨h1, h2, h3, h4⟩ := handlePump_start s i.float1 i.float2 i.millis hon hl hf
  exact ⟨e1.trans h1, e2.trans h2, e3.trans h3, e4.trans h4⟩

theorem loop_keep (s : State) (i : CycleInput) (t0 : Nat)
    (hr : PumpRunning s t0) (hf : floatSwitchTriggered i.float1 i.float2 = true)
    (ht : ulSub i.millis t0 ≤ MAX_PUMP_RUNTIME_MS) :
    PumpRunning (loop i s) t0 := by
  obtain ⟨e1, e2, e3, e4⟩ := loop_pump i s
  rw [handlePump_keep s _ _ _ t0 hr hf ht] at e1 e2 e3 e4
  obtain ⟨h1, h2, h3, h4⟩ := hr
  exact ⟨e1.trans h1, e2.trans h2, e3.trans h3, e4.trans h4⟩

theorem loop_trip (s : State) (i : CycleInput) (t0 : Nat)
    (hr : PumpRunning s t0) (hf : floatSwitchTriggered i.float1 i.float2 = true)
    (ht : ulSub i.millis t0 > MAX_PUMP_RUNTIME_MS) :
    PumpLocked (loop i s) := by
  obtain ⟨e1, e2, -, e4⟩ := loop_pump i s
  obtain ⟨h1, h2, h4⟩ := handlePump_trip s i.float1 i.float2 i.millis t0 hr hf ht
  exact ⟨e1.trans h1, e2.trans h2, e4.trans h4⟩

theorem runLoop_locked (ins : List CycleInput) (s : State) (h : PumpLocked s) :
    PumpLocked (runLoop s ins) := by
  induction ins generalizing s with
  | nil => exact h
  | cons i rest ih =>
    rw [runLoop_cons]
    apply ih
    obtain ⟨h1, h2, h3⟩ := h
    obtain ⟨k1, k2, -, k4⟩ := loop_locked s h2 i
    exact ⟨k2.trans h1, k1, k4.trans h3⟩

theorem pumpState_running (s : State) (t0 : Nat) (h : PumpRunning s t0) :
    pumpState s = .Running t0 := by
  obtain ⟨h1, h2, h3, -⟩ := h
  simp [pumpState, h1, h2, h3]

theorem pumpState_locked (s : State) (h : PumpLocked s) : pumpState s = .LockedOut := by
  simp [pumpState, h.2.1]

/-- A running pump fed with triggered float switches and in-range clock values
not before its start: either every cycle was within the limit and it still
runs, or some cycle exceeded the limit and it is locked out. -/
theorem runLoop_running (t0 : Nat) (ins : List CycleInput) (s : State)
    (hr : PumpRunning s t0)
    (hf : ∀ i ∈ ins, floatSwitchTriggered i.float1 i.float2 = true)
    (hrange : ∀ i ∈ ins, t0 ≤ i.millis ∧ i.millis < ULONG_MOD) :
    (PumpRunning (runLoop s ins) t0 ∧ ∀ i ∈ ins, i.millis - t0 ≤ MAX_PUMP_RUNTIME_MS) ∨
    (PumpLocked (runLoop s ins) ∧ ∃ i ∈ ins, i.millis - t0 > MAX_PUMP_RUNTIME_MS) := by
  induction ins generalizing s with
  | nil => left; exact ⟨hr, by simp⟩
  | cons i rest ih =>
    rw [runLoop_cons]
    have hfi := hf i (List.mem_cons_self _ _)
    obtain ⟨hlo, hhi⟩ := hrange i (List.mem_cons_self _ _)
    have hsub := ulSub_of_le i.millis t0 hlo hhi
    by_cases hlim : i.millis - t0 ≤ MAX_PUMP_RUNTIME_MS
    · have hr1 : PumpRunning (loop i s) t0 := loop_keep s i t0 hr hfi (by rw [hsub]; exact hlim)
      rcases ih (loop i s) hr1 (fun j hj => hf j (List.mem_cons_of_mem _ hj))
          (fun j hj => hrange j (List.mem_cons_of_mem _ hj)) with h | h
      · left
        refine ⟨h.1, fun j hj => ?_⟩
        rcases List.mem_cons.mp hj with rfl | hj
        · exact hlim
        · exact h.2 j hj
      · right
        obtain ⟨hl, j, hj, hgt⟩ := h
        exact ⟨hl, j, List.mem_cons_of_mem _ hj, hgt⟩
    · right
      have hgt : i.millis - t0 > MAX_PUMP_RUNTIME_MS := Nat.lt_of_not_le hlim
      have hl1 : PumpLocked (loop i s) := loop_trip s i t0 hr hfi (by rw [hsub]; exact hgt)
      exact ⟨runLoop_locked rest _ hl1, i, List.mem_cons_self _ _, hgt⟩

/-- In a run with a non-decreasing clock, every cycle among the first `k + 1`
has a clock value at most that of cycle `k`. -/
theorem millis_le_of_mem_take (ins : List CycleInput)
    (hs : List.Sorted (· ≤ ·) (ins.map CycleInput.millis)) (k : Nat) (hk : k < ins.length)
    (i : CycleInput) (hi : i ∈ ins.take (k + 1)) : i.millis ≤ ins[k].millis := by
  obtain ⟨j, hj, rfl⟩ := List.mem_take_iff_getElem.mp hi
  have hjk : j ≤ k := by omega
  rcases Nat.eq_or_lt_of_le hjk with rfl | hlt
  · exact le_rfl
  · have hp := List.pairwise_iff_getElem.mp hs j k (by simp; omega) (by simpa using hk) hlt
    simpa using hp

/-- State of a pump started at `t0` after the cycles `0..k` of a run with
triggered floats and a non-decreasing in-range clock: running iff cycle `k`
is within the limit, locked out otherwise. -/
theorem runLoop_take_running (t0 : Nat) (ins : List CycleInput) (s : State)
    (hr : PumpRunning s t0)
    (hf : ∀ i ∈ ins, floatSwitchTriggered i.float1 i.float2 = true)
    (hs : List.Sorted (· ≤ ·) (ins.map CycleInput.millis))
    (hrange : ∀ i ∈ ins, t0 ≤ i.millis ∧ i.millis < ULONG_MOD)
    (k : Nat) (hk : k < ins.length) :
    (ins[k].millis - t0 ≤ MAX_PUMP_RUNTIME_MS → PumpRunning (runLoop s (ins.take (k + 1))) t0) ∧
    (ins[k].millis - t0 > MAX_PUMP_RUNTIME_MS → PumpLocked (runLoop s (ins.take (k + 1)))) := by
  have hmem : ins[k] ∈ ins.take (k + 1) :=
    List.mem_take_iff_getElem.mpr ⟨k, by simp; omega, rfl⟩
  have hdis := runLoop_running t0 (ins.take (k + 1)) s hr
    (fun i hi => hf i (List.mem_of_mem_take hi))
    (fun i hi => hrange i (List.mem_of_mem_take hi))
  constructor
  · intro hle
    rcases hdis with h | ⟨-, j, hj, hgt⟩
    · exact h.1
    · have := millis_le_of_mem_take ins hs k hk j hj
      omega
  · intro hgt
    rcases hdis with ⟨-, h⟩ | h
    · have := h _ hmem
      omega
    · exact h.1

/-! ### Reachable states -/

theorem runLoop_take_succ (s : State) (ins : List CycleInput) (n : Nat) (hn : n < ins.length) :
    runLoop s (ins.take (n + 1)) = loop ins[n] (runLoop s (ins.take n)) := by
  rw [List.take_succ, List.getElem?_eq_getElem hn, runLoop_append]
  rfl

/-- The property that a set lockout flag goes with a cleared `pumpOn` flag is
kept by `handlePump()`. -/
theorem handlePump_lockout_off (s : State) (f1 f2 : PinLevel) (now : Nat)
    (hinv : s.pumpLockout = true → s.pumpOn = false) :
    (handlePump f1 f2 now s).pumpLockout = true → (handlePump f1 f2 now s).pumpOn = false := by
  unfold handlePump
  cases hl : s.pumpLockout <;> cases hon : s.pumpOn <;>
    cases hf : floatSwitchTriggered f1 f2 <;> simp_all
  split_ifs <;> simp_all

theorem loop_lockout_off (s : State) (i : CycleInput)
    (hinv : s.pumpLockout = true → s.pumpOn = false) :
    (loop i s).pumpLockout = true → (loop i s).pumpOn = false := by
  obtain ⟨e1, e2, -, -⟩ := loop_pump i s
  rw [e1, e2]
  exact handlePump_lockout_off s _ _ _ hinv

/-- After `setup()` and any cycles of `loop()`, a set lockout flag goes with a
cleared `pumpOn` flag. -/
theorem runLoop_lockout_off (d : Bool) (ins : List CycleInput) :
    (runLoop (setup d globals) ins).pumpLockout = true →
      (runLoop (setup d globals) ins).pumpOn = false := by
  have key : ∀ (ins : List CycleInput) (s : State),
      (s.pumpLockout = true → s.pumpOn = false) →
      ((runLoop s ins).pumpLockout = true → (runLoop s ins).pumpOn = false) := by
    intro ins
    induction ins with
    | nil => intro s h; exact h
    | cons i rest ih => intro s h; rw [runLoop_cons]; exact ih _ (loop_lockout_off s i h)
  apply key
  cases d <;> intro h <;> rfl

/-- When `handlePump()` returns with `pumpOn` set (from a state where lockout
goes with `pumpOn` cleared), the float switches were triggered and the lockout
flag is clear. -/
theorem handlePump_on_after (s : State) (f1 f2 : PinLevel) (now : Nat)
    (hinv : s.pumpLockout = true → s.pumpOn = false)
    (h : (handlePump f1 f2 now s).pumpOn = true) :
    floatSwitchTriggered f1 f2 = true ∧ (handlePump f1 f2 now s).pumpLockout = false := by
  unfold handlePump at h ⊢
  cases hl : s.pumpLockout <;> cases hon : s.pumpOn <;>
    cases hf : floatSwitchTriggered f1 f2 <;> simp_all
  split_ifs at h ⊢ <;> simp_all

/-! ### Single step of the fan -/

/-- Fan decision of `checkTemperature()` on a finite reading. -/
theorem checkTemperature_finite (s : State) (t : ℚ) :
    (checkTemperature (.finite t) s).fanOn =
        (if s.fanOn = false ∧ t ≥ 26.0 then true
         else if s.fanOn = true ∧ t ≤ 24.5 then false
         else s.fanOn) ∧
    (checkTemperature (.finite t) s).fanPin =
        (if s.fanOn = false ∧ t ≥ 26.0 then HIGH
         else if s.fanOn = true ∧ t ≤ 24.5 then LOW
         else s.fanPin) := by
  have hOn : (CFloat.finite t).ge TEMP_ON_THRESHOLD = decide (t ≥ 26.0) := by
    simp [CFloat.ge, CFloat.le, TEMP_ON_THRESHOLD]; norm_num
  have hOff : (CFloat.finite t).le TEMP_OFF_THRESHOLD = decide (t ≤ 24.5) := by
    simp [CFloat.le, TEMP_OFF_THRESHOLD]
  unfold checkTemperature
  dsimp only
  simp only [serialOut_fanOn, serialOut_currentTempC, hOn, hOff]
  cases hf : s.fanOn <;> by_cases h1 : t ≥ 26.0 <;> by_cases h2 : t ≤ 24.5 <;>
    simp [hf, h1, h2]

/-! ### Bound on the running time -/

/-- When `handlePump()`, called at an in-range clock value `now` not before
the start time of a running pump, returns with `pumpOn` set, the start time is
not after `now` and at most `MAX_PUMP_RUNTIME_MS` before it. -/
theorem handlePump_bounded (s : State) (f1 f2 : PinLevel) (now : Nat)
    (hinv : s.pumpLockout = true → s.pumpOn = false)
    (hle : s.pumpOn = true → s.pumpStartTime ≤ now) (hr : now < ULONG_MOD)
    (h : (handlePump f1 f2 now s).pumpOn = true) :
    (handlePump f1 f2 now s).pumpStartTime ≤ now ∧
      now - (handlePump f1 f2 now s).pumpStartTime ≤ MAX_PUMP_RUNTIME_MS := by
  cases hl : s.pumpLockout with
  | true =>
    exfalso
    rw [handlePump_locked s hl, serialOut_pumpOn, hinv hl] at h
    exact Bool.noConfusion h
  | false =>
    have hfl := (handlePump_on_after s f1 f2 now hinv h).1
    cases hon : s.pumpOn with
    | false =>
      have hrun := handlePump_start s f1 f2 now hon hl hfl
      rw [hrun.2.2.1]
      exact ⟨Nat.le_refl _, by simp⟩
    | true =>
      have hstart := hle hon
      have hsub := ulSub_of_le now s.pumpStartTime hstart hr
      by_cases ht : ulSub now s.pumpStartTime > MAX_PUMP_RUNTIME_MS
      · exfalso
        unfold handlePump at h
        simp [hl, hfl, hon, ht] at h
      · have hkeep : handlePump f1 f2 now s = s := by
          unfold handlePump
          simp [hl, hfl, hon, ht]
        rw [hkeep]
        exact ⟨hstart, by rw [← hsub]; exact Nat.le_of_not_lt ht⟩

/-- A call of `handlePump()` that switches the pump on stamps the start time
with the clock value it read. -/
theorem handlePump_start_time (s : State) (f1 f2 : PinLevel) (now : Nat)
    (hoff : s.pumpOn = false) (h : (handlePump f1 f2 now s).pumpOn = true) :
    (handlePump f1 f2 now s).pumpStartTime = now := by
  unfold handlePump at h ⊢
  split_ifs at h ⊢ <;> simp_all

/-- A call of `handlePump()` that leaves a running pump on keeps its start time. -/
theorem handlePump_keep_time (s : State) (f1 f2 : PinLevel) (now : Nat)
    (hon : s.pumpOn = true) (h : (handlePump f1 f2 now s).pumpOn = true) :
    (handlePump f1 f2 now s).pumpStartTime = s.pumpStartTime := by
  unfold handlePump at h ⊢
  split_ifs at h ⊢ <;> simp_all

/-! ### Output pins and flags -/

/-- One call of `handlePump()` keeps the pump pin HIGH exactly when `pumpOn` is set. -/
theorem handlePump_pumpPin_mirror (s : State) (f1 f2 : PinLevel) (now : Nat)
    (h : s.pumpPin = HIGH ↔ s.pumpOn = true) :
    (handlePump f1 f2 now s).pumpPin = HIGH ↔ (handlePump f1 f2 now s).pumpOn = true := by
  unfold handlePump
  split_ifs <;> simp_all

/-- One call of `checkTemperature()` keeps the fan pin HIGH exactly when `fanOn` is set. -/
theorem checkTemperature_fanPin_mirror (r : CFloat) (s : State)
    (h : s.fanPin = HIGH ↔ s.fanOn = true) :
    (checkTemperature r s).fanPin = HIGH ↔ (checkTemperature r s).fanOn = true := by
  unfold checkTemperature
  dsimp only
  split_ifs <;> simp_all

theorem handlePump_fanOn (s : State) (f1 f2 : PinLevel) (now : Nat) :
    (handlePump f1 f2 now s).fanOn = s.fanOn := by
  unfold handlePump; split_ifs <;> rfl

theorem handlePump_fanPin (s : State) (f1 f2 : PinLevel) (now : Nat) :
    (handlePump f1 f2 now s).fanPin = s.fanPin := by
  unfold handlePump; split_ifs <;> rfl

theorem handlePump_currentTempC (s : State) (f1 f2 : PinLevel) (now : Nat) :
    (handlePump f1 f2 now s).currentTempC = s.currentTempC := by
  unfold handlePump; split_ifs <;> rfl

theorem updateDisplay_fanOn (s : State) : (updateDisplay s).fanOn = s.fanOn := by
  unfold updateDisplay; split_ifs <;> rfl

theorem updateDisplay_fanPin (s : State) : (updateDisplay s).fanPin = s.fanPin := by
  unfold updateDisplay; split_ifs <;> rfl

/-- One cycle of `loop()` keeps both output pins in step with their flags. -/
theorem loop_pins_mirror (i : CycleInput) (s : State)
    (hfan : s.fanPin = HIGH ↔ s.fanOn = true) (hpump : s.pumpPin = HIGH ↔ s.pumpOn = true) :
    ((loop i s).fanPin = HIGH ↔ (loop i s).fanOn = true) ∧
    ((loop i s).pumpPin = HIGH ↔ (loop i s).pumpOn = true) := by
  constructor
  · unfold loop
    rw [updateDisplay_fanPin, updateDisplay_fanOn, handlePump_fanPin, handlePump_fanOn]
    exact checkTemperature_fanPin_mirror i.tempC s hfan
  · obtain ⟨e1, -, -, e4⟩ := loop_pump i s
    rw [e1, e4]
    exact handlePump_pumpPin_mirror s _ _ _ hpump

/-! ### The display flag -/

theorem updateDisplay_controlFields (s : State) :
    controlFields (updateDisplay s) = controlFields s := by
  unfold updateDisplay; split_ifs <;> rfl

theorem checkTemperature_displayAvailable (r : CFloat) (s : State) (b : Bool) :
    checkTemperature r { s with displayAvailable := b } =
      { checkTemperature r s with displayAvailable := b } := by
  unfold checkTemperature; dsimp only [serialOut]; split_ifs <;> rfl

theorem handlePump_displayAvailable (f1 f2 : PinLevel) (now : Nat) (s : State) (b : Bool) :
    handlePump f1 f2 now { s with displayAvailable := b } =
      { handlePump f1 f2 now s with displayAvailable := b } := by
  unfold handlePump; dsimp only [serialOut]; split_ifs <;> rfl

/-- The control fields after a cycle of `loop()` are those after its
`checkTemperature()` and `handlePump()` calls, whatever `displayAvailable` is. -/
theorem loop_controlFields (i : CycleInput) (s : State) (b : Bool) :
    controlFields (loop i { s with displayAvailable := b }) =
      controlFields (handlePump i.float1 i.float2 i.millis (checkTemperature i.tempC s)) := by
  unfold loop
  rw [updateDisplay_controlFields, checkTemperature_displayAvailable,
    handlePump_displayAvailable]
  rfl

/-! ### Runs of the fan -/

theorem runFan_concat (s : State) (rs : List CFloat) (r : CFloat) :
    runFan s (rs ++ [r]) = checkTemperature r (runFan s rs) := by
  simp [runFan, List.foldl_append]

/-- A finite reading outside the band decides the fan flag on its own. -/
theorem checkTemperature_outside (s : State) (t : ℚ) (h : outsideBand t = true) :
    (checkTemperature (.finite t) s).fanOn = decide (t ≥ 26.0) := by
  rw [(checkTemperature_finite s t).1]
  have hout : t ≤ 24.5 ∨ 26.0 ≤ t := by
    by_contra hc
    push_neg at hc
    simp [outsideBand, hc.1, hc.2] at h
  rcases hout with h1 | h1
  · have h2 : ¬ t ≥ 26.0 := by
      intro h3
      have : (26.0 : ℚ) ≤ 24.5 := le_trans h3 h1
      norm_num at this
    cases hf : s.fanOn <;> simp [h1, h2]
  · have h2 : ¬ t ≤ 24.5 := by
      intro h3
      have : (26.0 : ℚ) ≤ 24.5 := le_trans h1 h3
      norm_num at this
    have h1' : t ≥ 26.0 := h1
    cases hf : s.fanOn <;> simp [h1', h2]

/-- A finite reading inside the band leaves the fan flag as it is. -/
theorem checkTemperature_inside (s : State) (t : ℚ) (h : outsideBand t = false) :
    (checkTemperature (.finite t) s).fanOn = s.fanOn := by
  rw [(checkTemperature_finite s t).1]
  have hin : 24.5 < t ∧ t < 26.0 := by
    simpa [outsideBand] using h
  have h1 : ¬ t ≥ 26.0 := not_le.mpr hin.2
  have h2 : ¬ t ≤ 24.5 := not_le.mpr hin.1
  simp [h1, h2]

/-! ## Claims -/

/-- C1: lockout is irreversible. From a state with `pumpLockout` set, for all
float-switch levels and every clock value `handlePump()` returns with
`pumpLockout` still set and `pumpOn`, `pumpStartTime` and the pump pin
unchanged, printing the lockout line; and after any sequence of further
`loop()` cycles the pump state is still `LockedOut`, with those fields as
they were. -/
theorem C1_lockout_irreversible (s : State) (h : s.pumpLockout = true) :
    (∀ (f1 f2 : PinLevel) (now : Nat),
        (handlePump f1 f2 now s).pumpLockout = true ∧
        (handlePump f1 f2 now s).pumpOn = s.pumpOn ∧
        (handlePump f1 f2 now s).pumpStartTime = s.pumpStartTime ∧
        (handlePump f1 f2 now s).pumpPin = s.pumpPin ∧
        (handlePump f1 f2 now s).serial =
          s.serial ++ [.println "Pump locked out. Awaiting manual reset."]) ∧
    (∀ ins : List CycleInput,
        pumpState (runLoop s ins) = .LockedOut ∧
        (runLoop s ins).pumpLockout = true ∧
        (runLoop s ins).pumpOn = s.pumpOn ∧
        (runLoop s ins).pumpStartTime = s.pumpStartTime ∧
        (runLoop s ins).pumpPin = s.pumpPin) := by
  refine ⟨fun f1 f2 now => ?_, fun ins => ?_⟩
  · rw [handlePump_locked s h]; simp [h]
  · have key : ∀ (ins : List CycleInput) (st : State), st.pumpLockout = true →
        (runLoop st ins).pumpLockout = true ∧ (runLoop st ins).pumpOn = st.pumpOn ∧
        (runLoop st ins).pumpStartTime = st.pumpStartTime ∧
        (runLoop st ins).pumpPin = st.pumpPin := by
      intro ins
      induction ins with
      | nil => intro st hst; exact ⟨hst, rfl, rfl, rfl⟩
      | cons i rest ih =>
        intro st hst
        obtain ⟨h1, h2, h3, h4⟩ := loop_locked st hst i
        obtain ⟨k1, k2, k3, k4⟩ := ih (loop i st) h1
        rw [runLoop_cons]
        exact ⟨k1, k2.trans h2, k3.trans h3, k4.trans h4⟩
    obtain ⟨k1, k2, k3, k4⟩ := key ins s h
    refine ⟨?_, k1, k2, k3, k4⟩
    simp [pumpState, k1]

/-- Witness for C1: a locked-out state with the float switches triggered. -/
theorem C1_lockout_irreversible_witness :
    (handlePump LOW LOW 9000 { globals with pumpLockout := true }).pumpLockout = true ∧
    pumpState (runLoop { globals with pumpLockout := true }
      [⟨.finite 25, LOW, LOW, 1000⟩, ⟨.finite 25, HIGH, LOW, 9000⟩]) = .LockedOut :=
  ⟨((C1_lockout_irreversible { globals with pumpLockout := true } rfl).1 LOW LOW 9000).1,
   ((C1_lockout_irreversible { globals with pumpLockout := true } rfl).2 _).1⟩

/-- C2: fan hysteresis step. For every state and every finite reading `t`,
`checkTemperature()` sets `fanOn` when the fan is off and `t >= 26.0`, clears
it when the fan is on and `t <= 24.5`, and otherwise leaves it; so the fan turns
on only from off with `t >= 26.0`, turns off only from on with `t <= 24.5`, and
never changes for `24.5 < t < 26.0`. The fan pin follows the same decision. -/
theorem C2_fan_hysteresis_step (s : State) (t : ℚ) :
    (checkTemperature (.finite t) s).fanOn =
        (if s.fanOn = false ∧ t ≥ 26.0 then true
         else if s.fanOn = true ∧ t ≤ 24.5 then false
         else s.fanOn) ∧
    (checkTemperature (.finite t) s).fanPin =
        (if s.fanOn = false ∧ t ≥ 26.0 then HIGH
         else if s.fanOn = true ∧ t ≤ 24.5 then LOW
         else s.fanPin) ∧
    (s.fanOn = false → (checkTemperature (.finite t) s).fanOn = true → t ≥ 26.0) ∧
    (s.fanOn = true → (checkTemperature (.finite t) s).fanOn = false → t ≤ 24.5) ∧
    (24.5 < t → t < 26.0 → (checkTemperature (.finite t) s).fanOn = s.fanOn) := by
  obtain ⟨hon, hpin⟩ := checkTemperature_finite s t
  refine ⟨hon, hpin, ?_, ?_, ?_⟩
  · intro hf h
    rw [hon] at h
    by_contra hc
    simp [hf, hc] at h
  · intro hf h
    rw [hon] at h
    by_contra hc
    simp [hf, hc] at h
  · intro h1 h2
    rw [hon]
    have e1 : ¬ t ≥ 26.0 := not_le.mpr h2
    have e2 : ¬ t ≤ 24.5 := not_le.mpr h1
    simp [e1, e2]

/-- C3: lockout timing. A run starts from an idle, not locked-out pump with a
cycle at clock value `i0.millis` that switches the pump on; both float
switches read LOW on every cycle and the `millis()` values are non-decreasing.
Then after each later cycle `k` the pump is still running (flag set, pin HIGH,
start time kept) when `now - startedAt <= 5000`, so also at exactly 5000, and
locked out with the pump switched off when `now - startedAt > 5000`; the
lockout flag is therefore set on the first cycle that exceeds the limit and it
is still clear before that cycle. -/
theorem C3_lockout_timing (s : State) (i0 : CycleInput) (ins : List CycleInput)
    (hidle : s.pumpOn = false) (hnl : s.pumpLockout = false)
    (hf : ∀ i ∈ i0 :: ins, floatSwitchTriggered i.float1 i.float2 = true)
    (hmono : List.Sorted (· ≤ ·) ((i0 :: ins).map CycleInput.millis))
    (hrange : ∀ i ∈ i0 :: ins, i.millis < ULONG_MOD) :
    PumpRunning (loop i0 s) i0.millis ∧
    ∀ (k : Nat) (hk : k < ins.length),
      (ins[k].millis - i0.millis ≤ MAX_PUMP_RUNTIME_MS →
        PumpRunning (runLoop (loop i0 s) (ins.take (k + 1))) i0.millis) ∧
      (ins[k].millis - i0.millis > MAX_PUMP_RUNTIME_MS →
        PumpLocked (runLoop (loop i0 s) (ins.take (k + 1)))) ∧
      (ins[k].millis - i0.millis > MAX_PUMP_RUNTIME_MS →
        (∀ (j : Nat) (hj : j < ins.length), j < k →
          ins[j].millis - i0.millis ≤ MAX_PUMP_RUNTIME_MS) →
        (runLoop (loop i0 s) (ins.take k)).pumpLockout = false ∧
        (runLoop (loop i0 s) (ins.take k)).pumpOn = true ∧
        (runLoop (loop i0 s) (ins.take (k + 1))).pumpLockout = true ∧
        (runLoop (loop i0 s) (ins.take (k + 1))).pumpOn = false) := by
  have hstart : PumpRunning (loop i0 s) i0.millis :=
    loop_start s i0 hidle hnl (hf i0 (List.mem_cons_self _ _))
  have hcons : (∀ a ∈ ins, i0.millis ≤ a.millis) ∧
      List.Sorted (· ≤ ·) (ins.map CycleInput.millis) := by
    simpa [List.Sorted] using hmono
  have hs : List.Sorted (· ≤ ·) (ins.map CycleInput.millis) := hcons.2
  have hf1 : ∀ i ∈ ins, floatSwitchTriggered i.float1 i.float2 = true :=
    fun i hi => hf i (List.mem_cons_of_mem _ hi)
  have hr1 : ∀ i ∈ ins, i0.millis ≤ i.millis ∧ i.millis < ULONG_MOD :=
    fun i hi => ⟨hcons.1 i hi, hrange i (List.mem_cons_of_mem _ hi)⟩
  refine ⟨hstart, fun k hk => ?_⟩
  obtain ⟨hA, hB⟩ := runLoop_take_running i0.millis ins (loop i0 s) hstart hf1 hs hr1 k hk
  refine ⟨hA, hB, fun hgt hbefore => ?_⟩
  have hafter := hB hgt
  have hprev : PumpRunning (runLoop (loop i0 s) (ins.take k)) i0.millis := by
    cases k with
    | zero => simpa [runLoop] using hstart
    | succ m =>
      have hm : m < ins.length := by omega
      exact (runLoop_take_running i0.millis ins (loop i0 s) hstart hf1 hs hr1 m hm).1
        (hbefore m hm (Nat.lt_succ_self m))
  exact ⟨hprev.2.1, hprev.1, hafter.2.1, hafter.1⟩

/-- Witness for C3: pump started at 1000 ms, next cycles at 6000 ms (elapsed
exactly 5000, still running) and 6001 ms (locked out). -/
theorem C3_lockout_timing_witness :
    PumpRunning (runLoop (loop ⟨.finite 25, LOW, LOW, 1000⟩ globals)
      [⟨.finite 25, LOW, LOW, 6000⟩]) 1000 ∧
    PumpLocked (runLoop (loop ⟨.finite 25, LOW, LOW, 1000⟩ globals)
      [⟨.finite 25, LOW, LOW, 6000⟩, ⟨.finite 25, LOW, LOW, 6001⟩]) :=
  have h := C3_lockout_timing globals ⟨.finite 25, LOW, LOW, 1000⟩
    [⟨.finite 25, LOW, LOW, 6000⟩, ⟨.finite 25, LOW, LOW, 6001⟩] rfl rfl
    (by simp [floatSwitchTriggered]) (by simp [List.Sorted]) (by simp [ULONG_MOD])
  ⟨(h.2 0 (by decide)).1 (by decide), (h.2 1 (by decide)).2.1 (by decide)⟩

/-- C4, counterexample: the fan was switched on by a reading of 27.0 after
`setup()`; on the next cycle the read fails and yields -127.0, and
`checkTemperature()` switches the fan off (flag and pin), so neither `fanOn`
nor the fan pin is as it was before the cycle. -/
theorem C4_sensor_failure_counterexample :
    (checkTemperature (.finite 27) (setup false globals)).fanOn = true ∧
    (checkTemperature DEVICE_DISCONNECTED_C
        (checkTemperature (.finite 27) (setup false globals))).fanOn ≠
      (checkTemperature (.finite 27) (setup false globals)).fanOn ∧
    (checkTemperature DEVICE_DISCONNECTED_C
        (checkTemperature (.finite 27) (setup false globals))).fanPin ≠
      (checkTemperature (.finite 27) (setup false globals)).fanPin := by
  have h1 := checkTemperature_finite (setup false globals) 27
  have hoff : (setup false globals).fanOn = false := rfl
  have e1 : (checkTemperature (.finite 27) (setup false globals)).fanOn = true := by
    rw [h1.1, hoff]; norm_num
  have e2 : (checkTemperature (.finite 27) (setup false globals)).fanPin = HIGH := by
    rw [h1.2, hoff]; norm_num
  have h2 := checkTemperature_finite (checkTemperature (.finite 27) (setup false globals)) (-127)
  have e3 : (checkTemperature DEVICE_DISCONNECTED_C
      (checkTemperature (.finite 27) (setup false globals))).fanOn = false := by
    show (checkTemperature (.finite (-127)) _).fanOn = false
    rw [h2.1, e1]; norm_num
  have e4 : (checkTemperature DEVICE_DISCONNECTED_C
      (checkTemperature (.finite 27) (setup false globals))).fanPin = LOW := by
    show (checkTemperature (.finite (-127)) _).fanPin = LOW
    rw [h2.2, e1]; norm_num
  refine ⟨e1, ?_, ?_⟩
  · rw [e3, e1]; decide
  · rw [e4, e2]; decide

/-- C4, amended: on a cycle whose read fails, `getTempCByIndex` yields -127.0
and `checkTemperature()` handles it as an ordinary reading: it is stored in
`currentTempC`, a fan that is off stays off with the fan pin unchanged, and a
fan that is on is switched off (`fanOn` false, fan pin LOW), as -127.0 is
below the off threshold. -/
theorem C4_sensor_failure_amended (s : State) :
    (checkTemperature DEVICE_DISCONNECTED_C s).currentTempC = DEVICE_DISCONNECTED_C ∧
    (checkTemperature DEVICE_DISCONNECTED_C s).fanOn = false ∧
    (checkTemperature DEVICE_DISCONNECTED_C s).fanPin = (if s.fanOn then LOW else s.fanPin) := by
  obtain ⟨hon, hpin⟩ := checkTemperature_finite s (-127)
  refine ⟨?_, ?_, ?_⟩
  · unfold checkTemperature; dsimp only; split_ifs <;> rfl
  · show (checkTemperature (.finite (-127)) s).fanOn = false
    rw [hon]; cases hf : s.fanOn <;> norm_num
  · show (checkTemperature (.finite (-127)) s).fanPin = _
    rw [hpin]; cases hf : s.fanOn <;> norm_num

/-- C5: both float switches are required. With the pump off (`pumpOn` false),
when exactly one of the two float-switch inputs reads LOW, `handlePump()`
leaves `pumpOn` false and leaves the pump pin and the start time as they were;
and whenever `handlePump()` returns with `pumpOn` set, both inputs read LOW. -/
theorem C5_both_floats_required (s : State) (f1 f2 : PinLevel) (now : Nat)
    (hidle : s.pumpOn = false) :
    ((f1 = LOW ∧ f2 = HIGH) ∨ (f1 = HIGH ∧ f2 = LOW) →
      (handlePump f1 f2 now s).pumpOn = false ∧
      (handlePump f1 f2 now s).pumpPin = s.pumpPin ∧
      (handlePump f1 f2 now s).pumpStartTime = s.pumpStartTime ∧
      (handlePump f1 f2 now s).pumpLockout = s.pumpLockout) ∧
    ((handlePump f1 f2 now s).pumpOn = true → f1 = LOW ∧ f2 = LOW) := by
  constructor
  · intro h
    have hf : floatSwitchTriggered f1 f2 = false := by
      rcases h with ⟨rfl, rfl⟩ | ⟨rfl, rfl⟩ <;> rfl
    unfold handlePump
    cases hl : s.pumpLockout <;> simp [hf, hidle, hl]
  · intro h
    cases f1 <;> cases f2 <;> first
      | exact ⟨rfl, rfl⟩
      | (exfalso
         unfold handlePump at h
         cases hl : s.pumpLockout <;> simp [hl, hidle, floatSwitchTriggered] at h)

/-- Witness for C5: after `setup()` the pump is off; one switch LOW, the other
HIGH. -/
theorem C5_both_floats_required_witness :
    (setup false globals).pumpOn = false ∧
    (handlePump LOW HIGH 1000 (setup false globals)).pumpOn = false ∧
    (handlePump HIGH LOW 1000 (setup false globals)).pumpPin = LOW :=
  ⟨rfl,
   ((C5_both_floats_required (setup false globals) LOW HIGH 1000 rfl).1
      (Or.inl ⟨rfl, rfl⟩)).1,
   ((C5_both_floats_required (setup false globals) HIGH LOW 1000 rfl).1
      (Or.inr ⟨rfl, rfl⟩)).2.1⟩

/-- C6: the pump runs only while the floats stay triggered. Take any cycles
`ins` of `loop()` from the state after `setup()`. If `pumpOn` is set after the
first `n` cycles, then `pumpLockout` is clear, and there is a cycle `j < n`
before which `pumpOn` was clear (the cycle that last switched the pump on)
such that on every cycle from `j` to the last one both float switches read LOW
and `pumpOn` was set after the cycle. -/
theorem C6_runs_only_while_triggered (d : Bool) (ins : List CycleInput) (n : Nat)
    (hn : n ≤ ins.length)
    (hon : (runLoop (setup d globals) (ins.take n)).pumpOn = true) :
    (runLoop (setup d globals) (ins.take n)).pumpLockout = false ∧
    ∃ j, j < n ∧ (runLoop (setup d globals) (ins.take j)).pumpOn = false ∧
      ∀ (i : Nat) (hi : i < ins.length), j ≤ i → i < n →
        floatSwitchTriggered ins[i].float1 ins[i].float2 = true ∧
        (runLoop (setup d globals) (ins.take (i + 1))).pumpOn = true := by
  induction n with
  | zero =>
    exfalso
    cases d <;> simp [runLoop, setup, globals, serialOut, oledOut] at hon
  | succ m ih =>
    have hm : m < ins.length := hn
    have hstep := runLoop_take_succ (setup d globals) ins m hm
    have hinv := runLoop_lockout_off d (ins.take m)
    obtain ⟨e1, e2, -, -⟩ := loop_pump ins[m] (runLoop (setup d globals) (ins.take m))
    have hon1 : (handlePump ins[m].float1 ins[m].float2 ins[m].millis
        (runLoop (setup d globals) (ins.take m))).pumpOn = true := by
      rw [← e1, ← hstep]; exact hon
    obtain ⟨hfl, hnl⟩ := handlePump_on_after _ _ _ _ hinv hon1
    refine ⟨by rw [hstep, e2]; exact hnl, ?_⟩
    cases hprev : (runLoop (setup d globals) (ins.take m)).pumpOn with
    | false =>
      refine ⟨m, Nat.lt_succ_self m, hprev, fun i hi h1 h2 => ?_⟩
      have him : i = m := by omega
      subst him
      exact ⟨hfl, hon⟩
    | true =>
      obtain ⟨-, j, hj, hoff, hall⟩ := ih (Nat.le_of_lt hm) hprev
      refine ⟨j, Nat.lt_succ_of_lt hj, hoff, fun i hi h1 h2 => ?_⟩
      rcases Nat.lt_or_ge i m with hlt | hge
      · exact hall i hi h1 hlt
      · have him : i = m := by omega
        subst him
        exact ⟨hfl, hon⟩

/-- Witness for C6: two cycles after `setup()` with both float switches LOW;
the pump is on after the second cycle. -/
theorem C6_runs_only_while_triggered_witness :
    (runLoop (setup false globals)
      [⟨.finite 25, LOW, LOW, 1000⟩, ⟨.finite 25, LOW, LOW, 2000⟩]).pumpOn = true ∧
    (runLoop (setup false globals)
      [⟨.finite 25, LOW, LOW, 1000⟩, ⟨.finite 25, LOW, LOW, 2000⟩]).pumpLockout = false :=
  have hon : (runLoop (setup false globals) (List.take 2
      [⟨.finite 25, LOW, LOW, 1000⟩, ⟨.finite 25, LOW, LOW, 2000⟩])).pumpOn = true := by
    decide
  ⟨hon, (C6_runs_only_while_triggered false
    [⟨.finite 25, LOW, LOW, 1000⟩, ⟨.finite 25, LOW, LOW, 2000⟩] 2 (Nat.le_refl 2) hon).1⟩

/-- C7, counterexample: after `setup()` (fan off) the readings 25.0, 26.0,
25.5, 24.5, 24.0 give the fan flags off, on, on, off, off, not off, on, on,
on, off: the fourth reading, 24.5, meets `currentTempC <= TEMP_OFF_THRESHOLD`
and switches the fan off. -/
theorem C7_scenario_A_counterexample :
    (setup false globals).fanOn = false ∧
    fanTrace (setup false globals)
      [.finite 25.0, .finite 26.0, .finite 25.5, .finite 24.5, .finite 24.0] ≠
      [false, true, true, true, false] := by
  refine ⟨rfl, fun h => ?_⟩
  have hoff : (setup false globals).fanOn = false := rfl
  have h1 : (checkTemperature (.finite 25.0) (setup false globals)).fanOn = false := by
    rw [(checkTemperature_finite _ 25.0).1, hoff]; norm_num
  have h2 : (checkTemperature (.finite 26.0)
      (checkTemperature (.finite 25.0) (setup false globals))).fanOn = true := by
    rw [(checkTemperature_finite _ 26.0).1, h1]; norm_num
  have h3 : (checkTemperature (.finite 25.5) (checkTemperature (.finite 26.0)
      (checkTemperature (.finite 25.0) (setup false globals)))).fanOn = true := by
    rw [(checkTemperature_finite _ 25.5).1, h2]; norm_num
  have h4 : (checkTemperature (.finite 24.5) (checkTemperature (.finite 25.5)
      (checkTemperature (.finite 26.0)
        (checkTemperature (.finite 25.0) (setup false globals))))).fanOn = false := by
    rw [(checkTemperature_finite _ 24.5).1, h3]; norm_num
  simp only [fanTrace, h1, h2, h3, h4] at h
  simp at h

/-- C7, amended: starting with the fan off, the readings 25.0, 26.0, 25.5,
24.5, 24.0 fed to `checkTemperature()` on five consecutive cycles give the fan
flags off, on, on, off, off after the respective cycles. -/
theorem C7_scenario_A_amended (s : State) (hoff : s.fanOn = false) :
    fanTrace s [.finite 25.0, .finite 26.0, .finite 25.5, .finite 24.5, .finite 24.0] =
      [false, true, true, false, false] := by
  have h1 : (checkTemperature (.finite 25.0) s).fanOn = false := by
    rw [(checkTemperature_finite s 25.0).1, hoff]; norm_num
  have h2 : (checkTemperature (.finite 26.0) (checkTemperature (.finite 25.0) s)).fanOn = true := by
    rw [(checkTemperature_finite _ 26.0).1, h1]; norm_num
  have h3 : (checkTemperature (.finite 25.5) (checkTemperature (.finite 26.0)
      (checkTemperature (.finite 25.0) s))).fanOn = true := by
    rw [(checkTemperature_finite _ 25.5).1, h2]; norm_num
  have h4 : (checkTemperature (.finite 24.5) (checkTemperature (.finite 25.5)
      (checkTemperature (.finite 26.0) (checkTemperature (.finite 25.0) s)))).fanOn = false := by
    rw [(checkTemperature_finite _ 24.5).1, h3]; norm_num
  have h5 : (checkTemperature (.finite 24.0) (checkTemperature (.finite 24.5)
      (checkTemperature (.finite 25.5) (checkTemperature (.finite 26.0)
        (checkTemperature (.finite 25.0) s))))).fanOn = false := by
    rw [(checkTemperature_finite _ 24.0).1, h4]; norm_num
  simp only [fanTrace, h1, h2, h3, h4, h5]

/-- Witness for C7 (amended): the state after `setup()`. -/
theorem C7_scenario_A_amended_witness :
    (setup true globals).fanOn = false ∧
    fanTrace (setup true globals)
      [.finite 25.0, .finite 26.0, .finite 25.5, .finite 24.5, .finite 24.0] =
      [false, true, true, false, false] :=
  ⟨rfl, C7_scenario_A_amended (setup true globals) rfl⟩

/-- C8: scenario B. Ten cycles of `loop()` from an idle, not locked-out pump,
both float switches LOW on every cycle, `millis()` strictly increasing, and
some cycle more than 5000 ms after the first one. Then there is a number `m`
of cycles, `1 <= m <= 9`, such that the pump is running (started at the first
cycle's clock value) after each of the first `m` cycles and locked out, with
the pump off, after each of the remaining cycles: lockout is entered once and
the pump never runs again. -/
theorem C8_scenario_B (s : State) (i0 : CycleInput) (rest : List CycleInput)
    (hlen : (i0 :: rest).length = 10)
    (hidle : s.pumpOn = false) (hnl : s.pumpLockout = false)
    (hf : ∀ i ∈ i0 :: rest, floatSwitchTriggered i.float1 i.float2 = true)
    (hmono : List.Sorted (· < ·) ((i0 :: rest).map CycleInput.millis))
    (hrange : ∀ i ∈ i0 :: rest, i.millis < ULONG_MOD)
    (hexceed : ∃ i ∈ i0 :: rest, i.millis > i0.millis + MAX_PUMP_RUNTIME_MS) :
    ∃ m, 1 ≤ m ∧ m ≤ 9 ∧ ∀ k, k < 10 →
      (k < m → PumpRunning (runLoop s ((i0 :: rest).take (k + 1))) i0.millis ∧
        pumpState (runLoop s ((i0 :: rest).take (k + 1))) = .Running i0.millis) ∧
      (m ≤ k → PumpLocked (runLoop s ((i0 :: rest).take (k + 1))) ∧
        pumpState (runLoop s ((i0 :: rest).take (k + 1))) = .LockedOut) := by
  have hlen9 : rest.length = 9 := by simpa using hlen
  have hstart : PumpRunning (loop i0 s) i0.millis :=
    loop_start s i0 hidle hnl (hf i0 (List.mem_cons_self _ _))
  have hcons : (∀ a ∈ rest, i0.millis < a.millis) ∧
      List.Sorted (· < ·) (rest.map CycleInput.millis) := by
    simpa [List.Sorted] using hmono
  have hs : List.Sorted (· ≤ ·) (rest.map CycleInput.millis) :=
    List.Pairwise.imp (fun h => Nat.le_of_lt h) hcons.2
  have hf1 : ∀ i ∈ rest, floatSwitchTriggered i.float1 i.float2 = true :=
    fun i hi => hf i (List.mem_cons_of_mem _ hi)
  have hr1 : ∀ i ∈ rest, i0.millis ≤ i.millis ∧ i.millis < ULONG_MOD :=
    fun i hi => ⟨Nat.le_of_lt (hcons.1 i hi), hrange i (List.mem_cons_of_mem _ hi)⟩
  have hcyc := runLoop_take_running i0.millis rest (loop i0 s) hstart hf1 hs hr1
  -- first cycle of `rest` beyond the limit
  have hex : ∃ k, ∃ hk : k < rest.length, rest[k].millis - i0.millis > MAX_PUMP_RUNTIME_MS := by
    obtain ⟨i, hi, hgt⟩ := hexceed
    rcases List.mem_cons.mp hi with rfl | hi
    · omega
    · obtain ⟨k, hk, rfl⟩ := List.mem_iff_getElem.mp hi
      exact ⟨k, hk, by omega⟩
  classical
  obtain ⟨hm0, hgt0⟩ := Nat.find_spec hex
  refine ⟨Nat.find hex + 1, by omega, by omega, fun k hk10 => ?_⟩
  cases k with
  | zero =>
    refine ⟨fun _ => ⟨hstart, pumpState_running _ _ hstart⟩, fun h => ?_⟩
    omega
  | succ j =>
    have hj : j < rest.length := by omega
    have htake : runLoop s ((i0 :: rest).take (j + 1 + 1)) =
        runLoop (loop i0 s) (rest.take (j + 1)) := rfl
    rw [htake]
    constructor
    · intro hlt
      have hnot := Nat.find_min hex (show j < Nat.find hex by omega)
      have hle : rest[j].millis - i0.millis ≤ MAX_PUMP_RUNTIME_MS := by
        by_contra hc
        exact hnot ⟨hj, Nat.lt_of_not_le hc⟩
      have hrun := (hcyc j hj).1 hle
      exact ⟨hrun, pumpState_running _ _ hrun⟩
    · intro hge
      have hle : rest[Nat.find hex].millis ≤ rest[j].millis :=
        millis_le_of_mem_take rest hs j hj _
          (List.mem_take_iff_getElem.mpr
            ⟨Nat.find hex, lt_min_iff.mpr ⟨by omega, hm0⟩, rfl⟩)
      have hlock := (hcyc j hj).2 (Nat.lt_of_lt_of_le hgt0 (Nat.sub_le_sub_right hle _))
      exact ⟨hlock, pumpState_locked _ hlock⟩

/-- Witness for C8: ten cycles after `setup()`, at 1000, 2000, ..., 10000 ms;
the cycle at 7000 ms is the first one more than 5000 ms after the start. -/
theorem C8_scenario_B_witness :
    ∃ m, 1 ≤ m ∧ m ≤ 9 ∧ ∀ k, k < 10 →
      (k < m →
        PumpRunning (runLoop (setup false globals)
          ((scenarioBFirst :: scenarioBRest).take (k + 1))) scenarioBFirst.millis ∧
        pumpState (runLoop (setup false globals)
          ((scenarioBFirst :: scenarioBRest).take (k + 1))) = .Running scenarioBFirst.millis) ∧
      (m ≤ k →
        PumpLocked (runLoop (setup false globals)
          ((scenarioBFirst :: scenarioBRest).take (k + 1))) ∧
        pumpState (runLoop (setup false globals)
          ((scenarioBFirst :: scenarioBRest).take (k + 1))) = .LockedOut) :=
  C8_scenario_B (setup false globals) scenarioBFirst scenarioBRest rfl rfl rfl
    (by simp [scenarioBFirst, scenarioBRest, floatSwitchTriggered])
    (by simp [scenarioBFirst, scenarioBRest, List.Sorted])
    (by simp [scenarioBFirst, scenarioBRest, ULONG_MOD])
    ⟨⟨.finite 25, LOW, LOW, 7000⟩, by simp [scenarioBRest],
      by simp [scenarioBFirst, MAX_PUMP_RUNTIME_MS]⟩

/-- C9: scenario C, timer restart. From an idle, not locked-out pump, three
cycles of `loop()` with the float switches triggered, not triggered, triggered
give: pump running since the first cycle's clock value; pump off (flag clear,
pin LOW) and not locked out; pump running again with `pumpStartTime` equal to
the third cycle's clock value, still not locked out, whatever the clock
values are. -/
theorem C9_scenario_C (s : State) (c1 c2 c3 : CycleInput)
    (hidle : s.pumpOn = false) (hnl : s.pumpLockout = false)
    (h1 : floatSwitchTriggered c1.float1 c1.float2 = true)
    (h2 : floatSwitchTriggered c2.float1 c2.float2 = false)
    (h3 : floatSwitchTriggered c3.float1 c3.float2 = true) :
    (PumpRunning (runLoop s [c1]) c1.millis ∧
      pumpState (runLoop s [c1]) = .Running c1.millis) ∧
    ((runLoop s [c1, c2]).pumpOn = false ∧ (runLoop s [c1, c2]).pumpLockout = false ∧
      (runLoop s [c1, c2]).pumpPin = LOW ∧ pumpState (runLoop s [c1, c2]) = .Idle) ∧
    (PumpRunning (runLoop s [c1, c2, c3]) c3.millis ∧
      pumpState (runLoop s [c1, c2, c3]) = .Running c3.millis ∧
      (runLoop s [c1, c2, c3]).pumpStartTime = c3.millis) := by
  have r1 : PumpRunning (loop c1 s) c1.millis := loop_start s c1 hidle hnl h1
  obtain ⟨e1, e2, -, e4⟩ := loop_pump c2 (loop c1 s)
  obtain ⟨k1, k2, k4⟩ := handlePump_stop (loop c1 s) c2.float1 c2.float2 c2.millis r1.1 r1.2.1 h2
  have i1 : (loop c2 (loop c1 s)).pumpOn = false := e1.trans k1
  have i2 : (loop c2 (loop c1 s)).pumpLockout = false := e2.trans k2
  have i4 : (loop c2 (loop c1 s)).pumpPin = LOW := e4.trans k4
  have r3 : PumpRunning (loop c3 (loop c2 (loop c1 s))) c3.millis := loop_start _ c3 i1 i2 h3
  refine ⟨⟨r1, pumpState_running _ _ r1⟩, ⟨i1, i2, i4, ?_⟩, ⟨r3, pumpState_running _ _ r3, r3.2.2.1⟩⟩
  show pumpState (loop c2 (loop c1 s)) = .Idle
  simp [pumpState, i1, i2]

/-- Witness for C9: after `setup()`, cycles at 1000, 2000 and 3000 ms with
the float switches LOW/LOW, HIGH/LOW, LOW/LOW. -/
theorem C9_scenario_C_witness :
    pumpState (runLoop (setup false globals) [⟨.finite 25, LOW, LOW, 1000⟩]) = .Running 1000 ∧
    pumpState (runLoop (setup false globals)
      [⟨.finite 25, LOW, LOW, 1000⟩, ⟨.finite 25, HIGH, LOW, 2000⟩]) = .Idle ∧
    pumpState (runLoop (setup false globals)
      [⟨.finite 25, LOW, LOW, 1000⟩, ⟨.finite 25, HIGH, LOW, 2000⟩,
       ⟨.finite 25, LOW, LOW, 3000⟩]) = .Running 3000 :=
  have h := C9_scenario_C (setup false globals) ⟨.finite 25, LOW, LOW, 1000⟩
    ⟨.finite 25, HIGH, LOW, 2000⟩ ⟨.finite 25, LOW, LOW, 3000⟩ rfl rfl rfl rfl rfl
  ⟨h.1.2, h.2.1.2.2.2, h.2.2.2.1⟩

/-- C10: wraparound-tolerant runtime. For every start time `s` and every
elapsed duration `d < 2^32`, with `millis()` reading `(s + d) mod 2^32` the
unsigned difference computed by `handlePump()` is `d`; so a running pump with
triggered floats is locked out on that cycle exactly when `d > 5000`, and
otherwise left as it is, also when the counter has wrapped. -/
theorem C10_wraparound (s d : Nat) (hd : d < 2 ^ 32) :
    ulSub ((s + d) % 2 ^ 32) s = d ∧
    ∀ (st : State) (f1 f2 : PinLevel), PumpRunning st s →
      floatSwitchTriggered f1 f2 = true →
      (((handlePump f1 f2 ((s + d) % 2 ^ 32) st).pumpLockout = true ↔
          d > MAX_PUMP_RUNTIME_MS) ∧
       (d > MAX_PUMP_RUNTIME_MS → PumpLocked (handlePump f1 f2 ((s + d) % 2 ^ 32) st)) ∧
       (d ≤ MAX_PUMP_RUNTIME_MS → handlePump f1 f2 ((s + d) % 2 ^ 32) st = st)) := by
  have hsub : ulSub ((s + d) % 2 ^ 32) s = d := by
    unfold ulSub ULONG_MOD
    norm_num at hd ⊢
    omega
  refine ⟨hsub, fun st f1 f2 hr hf => ?_⟩
  have hgt : d > MAX_PUMP_RUNTIME_MS → PumpLocked (handlePump f1 f2 ((s + d) % 2 ^ 32) st) :=
    fun h => handlePump_trip st f1 f2 _ s hr hf (by rw [hsub]; exact h)
  have hle : d ≤ MAX_PUMP_RUNTIME_MS → handlePump f1 f2 ((s + d) % 2 ^ 32) st = st :=
    fun h => handlePump_keep st f1 f2 _ s hr hf (by rw [hsub]; exact h)
  refine ⟨⟨fun h => ?_, fun h => (hgt h).2.1⟩, hgt, hle⟩
  by_contra hc
  rw [hle (Nat.le_of_not_lt hc), hr.2.1] at h
  exact Bool.noConfusion h

/-- Witness for C10: pump started at 4294967000 ms, 1000 ms elapse and the
counter wraps to 704; the computed difference is 1000 and the pump keeps
running. -/
theorem C10_wraparound_witness :
    (4294967000 + 1000) % 2 ^ 32 = 704 ∧ ulSub 704 4294967000 = 1000 :=
  ⟨by norm_num, (C10_wraparound 4294967000 1000 (by norm_num)).1⟩

/-- C11: bounded pump runtime. Take any cycles of `loop()` from the state
after `setup()`, with non-decreasing `millis()` values. If `pumpOn` is set
after the cycle whose `handlePump()` call read the clock value `now`, then
`pumpStartTime` is not after `now` and `now - pumpStartTime <= 5000`, as a
plain difference and as the unsigned difference the code computes; and
`pumpStartTime` is the clock value of the cycle `j` that switched the pump on
(pump off before cycle `j`, on after every cycle from `j` to this one), so no
cycle ends with the pump on more than 5000 ms after the cycle that started
it. -/
theorem C11_bounded_runtime (d : Bool) (ins : List CycleInput)
    (hmono : List.Sorted (· ≤ ·) (ins.map CycleInput.millis))
    (hrange : ∀ i ∈ ins, i.millis < ULONG_MOD)
    (k : Nat) (hk : k < ins.length)
    (hon : (runLoop (setup d globals) (ins.take (k + 1))).pumpOn = true) :
    (runLoop (setup d globals) (ins.take (k + 1))).pumpStartTime ≤ ins[k].millis ∧
    ins[k].millis - (runLoop (setup d globals) (ins.take (k + 1))).pumpStartTime
      ≤ MAX_PUMP_RUNTIME_MS ∧
    ulSub ins[k].millis (runLoop (setup d globals) (ins.take (k + 1))).pumpStartTime
      ≤ MAX_PUMP_RUNTIME_MS ∧
    ∃ (j : Nat) (hj : j < ins.length), j ≤ k ∧
      (runLoop (setup d globals) (ins.take j)).pumpOn = false ∧
      (∀ i, j ≤ i → i ≤ k → (runLoop (setup d globals) (ins.take (i + 1))).pumpOn = true) ∧
      (runLoop (setup d globals) (ins.take (k + 1))).pumpStartTime = ins[j].millis ∧
      ins[j].millis ≤ ins[k].millis ∧
      ins[k].millis - ins[j].millis ≤ MAX_PUMP_RUNTIME_MS := by
  -- a cycle that finds the pump off and leaves it on stamps its own clock value
  have hfresh : ∀ (m : Nat) (hm : m < ins.length),
      (runLoop (setup d globals) (ins.take m)).pumpOn = false →
      (runLoop (setup d globals) (ins.take (m + 1))).pumpOn = true →
      (runLoop (setup d globals) (ins.take (m + 1))).pumpStartTime = ins[m].millis := by
    intro m hm hoff h
    rw [runLoop_take_succ _ ins m hm] at h ⊢
    obtain ⟨e1, -, e3, -⟩ := loop_pump ins[m] (runLoop (setup d globals) (ins.take m))
    rw [e1] at h
    rw [e3]
    exact handlePump_start_time _ _ _ _ hoff h
  have key : ∀ (m : Nat) (hm : m < ins.length),
      (runLoop (setup d globals) (ins.take (m + 1))).pumpOn = true →
      ∃ (j : Nat) (hj : j < ins.length), j ≤ m ∧
        (runLoop (setup d globals) (ins.take j)).pumpOn = false ∧
        (∀ i, j ≤ i → i ≤ m →
          (runLoop (setup d globals) (ins.take (i + 1))).pumpOn = true) ∧
        (runLoop (setup d globals) (ins.take (m + 1))).pumpStartTime = ins[j].millis ∧
        ins[j].millis ≤ ins[m].millis ∧
        ins[m].millis - ins[j].millis ≤ MAX_PUMP_RUNTIME_MS := by
    intro m
    induction m with
    | zero =>
      intro hm h
      have hoff : (runLoop (setup d globals) (ins.take 0)).pumpOn = false := by
        cases d <;> rfl
      refine ⟨0, hm, Nat.le_refl 0, hoff, fun i h1 h2 => ?_, hfresh 0 hm hoff h,
        Nat.le_refl _, by simp⟩
      have hi : i = 0 := by omega
      subst hi
      exact h
    | succ n ih =>
      intro hm h
      have hn : n < ins.length := Nat.lt_of_succ_lt hm
      cases hprev : (runLoop (setup d globals) (ins.take (n + 1))).pumpOn with
      | false =>
        refine ⟨n + 1, hm, Nat.le_refl _, hprev, fun i h1 h2 => ?_, hfresh (n + 1) hm hprev h,
          Nat.le_refl _, by simp⟩
        have hi : i = n + 1 := by omega
        subst hi
        exact h
      | true =>
        obtain ⟨j, hj, hjn, hoff, hall, hst, hle, -⟩ := ih hn hprev
        have hstep : ins[n].millis ≤ ins[n + 1].millis := by
          have hp2 := List.pairwise_iff_getElem.mp hmono n (n + 1) (by simpa using hn)
            (by simpa using hm) (Nat.lt_succ_self n)
          simpa using hp2
        have h0 := h
        rw [runLoop_take_succ _ ins (n + 1) hm] at h ⊢
        obtain ⟨e1, -, e3, -⟩ :=
          loop_pump ins[n + 1] (runLoop (setup d globals) (ins.take (n + 1)))
        rw [e1] at h
        have hkeep := handlePump_keep_time _ ins[n + 1].float1 ins[n + 1].float2
          ins[n + 1].millis hprev h
        have hbound := handlePump_bounded _ ins[n + 1].float1 ins[n + 1].float2
          ins[n + 1].millis (runLoop_lockout_off d (ins.take (n + 1)))
          (fun _ => by rw [hst]; exact Nat.le_trans hle hstep)
          (hrange _ (List.getElem_mem _)) h
        rw [hkeep, hst] at hbound
        refine ⟨j, hj, Nat.le_succ_of_le hjn, hoff, fun i h1 h2 => ?_, ?_, hbound.1, hbound.2⟩
        · rcases Nat.lt_or_ge i (n + 1) with hlt | hge
          · exact hall i h1 (Nat.le_of_lt_succ hlt)
          · have hi : i = n + 1 := by omega
            subst hi
            exact h0
        · rw [e3, hkeep, hst]
  obtain ⟨j, hj, hjk, hoff, hall, hst, hle, hbd⟩ := key k hk hon
  refine ⟨by rw [hst]; exact hle, by rw [hst]; exact hbd, ?_, j, hj, hjk, hoff, hall, hst,
    hle, hbd⟩
  rw [hst, ulSub_of_le _ _ hle (hrange _ (List.getElem_mem _))]
  exact hbd

/-- Witness for C11: after `setup()`, cycles at 1000 and 6000 ms with both
float switches LOW; the pump is on after the second cycle, 5000 ms after its
start. -/
theorem C11_bounded_runtime_witness :
    (runLoop (setup false globals)
      [⟨.finite 25, LOW, LOW, 1000⟩, ⟨.finite 25, LOW, LOW, 6000⟩]).pumpOn = true ∧
    6000 - (runLoop (setup false globals)
      [⟨.finite 25, LOW, LOW, 1000⟩, ⟨.finite 25, LOW, LOW, 6000⟩]).pumpStartTime
      ≤ MAX_PUMP_RUNTIME_MS :=
  have hon : (runLoop (setup false globals) (List.take (1 + 1)
      [⟨.finite 25, LOW, LOW, 1000⟩, ⟨.finite 25, LOW, LOW, 6000⟩])).pumpOn = true := by
    decide
  ⟨hon, (C11_bounded_runtime false
    [⟨.finite 25, LOW, LOW, 1000⟩, ⟨.finite 25, LOW, LOW, 6000⟩]
    (by simp [List.Sorted]) (by simp [ULONG_MOD]) 1 (by decide) hon).2.1⟩

/-- C12: lockout halts the pump. In every state reached from `setup()` by any
number of `loop()` cycles, a set `pumpLockout` flag goes with `pumpOn` false
and the pump pin (last level written to it) LOW. -/
theorem C12_lockout_halts_pump (d : Bool) (ins : List CycleInput) :
    (runLoop (setup d globals) ins).pumpLockout = true →
      (runLoop (setup d globals) ins).pumpOn = false ∧
      (runLoop (setup d globals) ins).pumpPin = LOW := by
  have key : ∀ (ins : List CycleInput) (s : State),
      (s.pumpLockout = true → s.pumpOn = false) → (s.pumpPin = HIGH ↔ s.pumpOn = true) →
      (s.fanPin = HIGH ↔ s.fanOn = true) →
      ((runLoop s ins).pumpLockout = true → (runLoop s ins).pumpOn = false) ∧
      ((runLoop s ins).pumpPin = HIGH ↔ (runLoop s ins).pumpOn = true) := by
    intro ins
    induction ins with
    | nil => intro s h1 h2 _; exact ⟨h1, h2⟩
    | cons i rest ih =>
      intro s h1 h2 h3
      rw [runLoop_cons]
      obtain ⟨m1, m2⟩ := loop_pins_mirror i s h3 h2
      exact ih (loop i s) (loop_lockout_off s i h1) m2 m1
  have hstart : (setup d globals).pumpOn = false ∧ (setup d globals).pumpLockout = false ∧
      (setup d globals).pumpPin = LOW ∧ (setup d globals).fanPin = LOW ∧
      (setup d globals).fanOn = false := by
    cases d <;> exact ⟨rfl, rfl, rfl, rfl, rfl⟩
  obtain ⟨s1, s2, s3, s4, s5⟩ := hstart
  obtain ⟨k1, k2⟩ := key ins (setup d globals) (by simp [s1]) (by simp [s1, s3]) (by simp [s4, s5])
  intro hl
  have hoff := k1 hl
  refine ⟨hoff, ?_⟩
  cases hp : (runLoop (setup d globals) ins).pumpPin with
  | LOW => rfl
  | HIGH =>
    have := k2.mp hp
    rw [hoff] at this
    exact Bool.noConfusion this

/-- Witness for C12: the pump is started at 1000 ms and locked out at
7000 ms; the flag and the pin are off then and after a further cycle. -/
theorem C12_lockout_halts_pump_witness :
    (runLoop (setup false globals)
      [⟨.finite 25, LOW, LOW, 1000⟩, ⟨.finite 25, LOW, LOW, 7000⟩,
       ⟨.finite 25, LOW, LOW, 8000⟩]).pumpLockout = true ∧
    (runLoop (setup false globals)
      [⟨.finite 25, LOW, LOW, 1000⟩, ⟨.finite 25, LOW, LOW, 7000⟩,
       ⟨.finite 25, LOW, LOW, 8000⟩]).pumpOn = false ∧
    (runLoop (setup false globals)
      [⟨.finite 25, LOW, LOW, 1000⟩, ⟨.finite 25, LOW, LOW, 7000⟩,
       ⟨.finite 25, LOW, LOW, 8000⟩]).pumpPin = LOW :=
  have hl : (runLoop (setup false globals)
      [⟨.finite 25, LOW, LOW, 1000⟩, ⟨.finite 25, LOW, LOW, 7000⟩,
       ⟨.finite 25, LOW, LOW, 8000⟩]).pumpLockout = true := by
    decide
  ⟨hl, C12_lockout_halts_pump false _ hl⟩

/-- C13: the presenter is purely observational. `updateDisplay()` changes
none of `fanOn`, `pumpOn`, `pumpLockout`, `pumpStartTime` and the two pin
levels (it changes nothing but the record of display calls), and from every
state and for every cycle input one cycle of `loop()` gives the same values of
those fields with `displayAvailable` true as with `displayAvailable` false. -/
theorem C13_presenter_observational (s : State) (i : CycleInput) :
    controlFields (updateDisplay s) = controlFields s ∧
    updateDisplay s = { s with oled := (updateDisplay s).oled } ∧
    controlFields (loop i { s with displayAvailable := true }) =
      controlFields (loop i { s with displayAvailable := false }) := by
  refine ⟨updateDisplay_controlFields s, ?_, ?_⟩
  · unfold updateDisplay; split_ifs <;> rfl
  · rw [loop_controlFields i s true, loop_controlFields i s false]

/-- C14: the two controllers are independent. `checkTemperature()` leaves
`pumpOn`, `pumpLockout`, `pumpStartTime` and the pump pin unchanged;
`handlePump()` leaves `fanOn`, `currentTempC` and the fan pin unchanged; the
fan fields computed by `checkTemperature()` are the same whatever the pump
fields are, and the pump fields computed by `handlePump()` are the same
whatever the fan fields and the stored temperature are. -/
theorem C14_controllers_independent (s : State) (r : CFloat) (f1 f2 : PinLevel) (now : Nat) :
    ((checkTemperature r s).pumpOn = s.pumpOn ∧
      (checkTemperature r s).pumpLockout = s.pumpLockout ∧
      (checkTemperature r s).pumpStartTime = s.pumpStartTime ∧
      (checkTemperature r s).pumpPin = s.pumpPin) ∧
    ((handlePump f1 f2 now s).fanOn = s.fanOn ∧
      (handlePump f1 f2 now s).currentTempC = s.currentTempC ∧
      (handlePump f1 f2 now s).fanPin = s.fanPin) ∧
    (∀ (po pl : Bool) (pst : Nat) (pp : PinLevel),
      (checkTemperature r
          { s with pumpOn := po, pumpLockout := pl, pumpStartTime := pst, pumpPin := pp }).fanOn =
        (checkTemperature r s).fanOn ∧
      (checkTemperature r
          { s with pumpOn := po, pumpLockout := pl, pumpStartTime := pst, pumpPin := pp }).fanPin =
        (checkTemperature r s).fanPin ∧
      (checkTemperature r
          { s with pumpOn := po, pumpLockout := pl, pumpStartTime := pst,
                   pumpPin := pp }).currentTempC =
        (checkTemperature r s).currentTempC) ∧
    (∀ (fo : Bool) (fp : PinLevel) (tc : CFloat),
      (handlePump f1 f2 now { s with fanOn := fo, fanPin := fp, currentTempC := tc }).pumpOn =
        (handlePump f1 f2 now s).pumpOn ∧
      (handlePump f1 f2 now { s with fanOn := fo, fanPin := fp, currentTempC := tc }).pumpLockout =
        (handlePump f1 f2 now s).pumpLockout ∧
      (handlePump f1 f2 now
          { s with fanOn := fo, fanPin := fp, currentTempC := tc }).pumpStartTime =
        (handlePump f1 f2 now s).pumpStartTime ∧
      (handlePump f1 f2 now { s with fanOn := fo, fanPin := fp, currentTempC := tc }).pumpPin =
        (handlePump f1 f2 now s).pumpPin) := by
  refine ⟨⟨checkTemperature_pumpOn r s, checkTemperature_pumpLockout r s,
    checkTemperature_pumpStartTime r s, checkTemperature_pumpPin r s⟩,
    ⟨handlePump_fanOn s f1 f2 now, handlePump_currentTempC s f1 f2 now,
      handlePump_fanPin s f1 f2 now⟩, ?_, ?_⟩
  · intro po pl pst pp
    unfold checkTemperature
    dsimp only [serialOut]
    split_ifs <;> exact ⟨rfl, rfl, rfl⟩
  · intro fo fp tc
    unfold handlePump
    dsimp only [serialOut]
    split_ifs <;> exact ⟨rfl, rfl, rfl, rfl⟩

/-- C15: closed form of the hysteresis. For every state and every finite
sequence of finite readings fed to `checkTemperature()`, the resulting `fanOn`
is set iff the last reading outside the open band (24.5, 26.0) is `>= 26.0`,
or no reading is outside the band and the fan was on at the start; and the
result is the same when the readings inside the band are left out. -/
theorem C15_hysteresis_closed_form (s : State) (rs : List ℚ) :
    ((runFan s (rs.map CFloat.finite)).fanOn = true ↔
      match (rs.filter outsideBand).getLast? with
      | some t => t ≥ 26.0
      | none => s.fanOn = true) ∧
    (runFan s ((rs.filter outsideBand).map CFloat.finite)).fanOn =
      (runFan s (rs.map CFloat.finite)).fanOn := by
  induction rs using List.reverseRecOn with
  | nil => simp [runFan]
  | append_singleton l a ih =>
    obtain ⟨ih1, ih2⟩ := ih
    rw [List.map_append, List.map_singleton, runFan_concat, List.filter_append]
    cases hout : outsideBand a with
    | true =>
      have hfil : List.filter outsideBand [a] = [a] := by simp [hout]
      rw [hfil, List.getLast?_concat, List.map_append, List.map_singleton, runFan_concat,
        checkTemperature_outside _ a hout, checkTemperature_outside _ a hout]
      exact ⟨by simp, rfl⟩
    | false =>
      have hfil : List.filter outsideBand [a] = [] := by simp [hout]
      rw [hfil, List.append_nil, checkTemperature_inside _ a hout]
      exact ⟨ih1, ih2⟩

/-- C16: outputs mirror the state flags. Whatever levels `fp`, `pp` the two
output pins have at power-on, after `setup()` both pins are LOW (it writes LOW
to each) and `fanOn`, `pumpOn`, `pumpLockout` are false; and in every state
reached from there by any number of `loop()` cycles the fan pin (last level
written) is HIGH iff `fanOn` is set and the pump pin is HIGH iff `pumpOn` is
set. -/
theorem C16_outputs_mirror_flags (d : Bool) (fp pp : PinLevel) (ins : List CycleInput) :
    ((setup d { globals with fanPin := fp, pumpPin := pp }).fanPin = LOW ∧
      (setup d { globals with fanPin := fp, pumpPin := pp }).pumpPin = LOW ∧
      (setup d { globals with fanPin := fp, pumpPin := pp }).fanOn = false ∧
      (setup d { globals with fanPin := fp, pumpPin := pp }).pumpOn = false ∧
      (setup d { globals with fanPin := fp, pumpPin := pp }).pumpLockout = false) ∧
    ((runLoop (setup d { globals with fanPin := fp, pumpPin := pp }) ins).fanPin = HIGH ↔
      (runLoop (setup d { globals with fanPin := fp, pumpPin := pp }) ins).fanOn = true) ∧
    ((runLoop (setup d { globals with fanPin := fp, pumpPin := pp }) ins).pumpPin = HIGH ↔
      (runLoop (setup d { globals with fanPin := fp, pumpPin := pp }) ins).pumpOn = true) := by
  have hstart : (setup d { globals with fanPin := fp, pumpPin := pp }).fanPin = LOW ∧
      (setup d { globals with fanPin := fp, pumpPin := pp }).pumpPin = LOW ∧
      (setup d { globals with fanPin := fp, pumpPin := pp }).fanOn = false ∧
      (setup d { globals with fanPin := fp, pumpPin := pp }).pumpOn = false ∧
      (setup d { globals with fanPin := fp, pumpPin := pp }).pumpLockout = false := by
    cases d <;> exact ⟨rfl, rfl, rfl, rfl, rfl⟩
  have key : ∀ (ins : List CycleInput) (st : State),
      (st.fanPin = HIGH ↔ st.fanOn = true) → (st.pumpPin = HIGH ↔ st.pumpOn = true) →
      ((runLoop st ins).fanPin = HIGH ↔ (runLoop st ins).fanOn = true) ∧
      ((runLoop st ins).pumpPin = HIGH ↔ (runLoop st ins).pumpOn = true) := by
    intro ins
    induction ins with
    | nil => intro st h1 h2; exact ⟨h1, h2⟩
    | cons i rest ih =>
      intro st h1 h2
      rw [runLoop_cons]
      obtain ⟨m1, m2⟩ := loop_pins_mirror i st h1 h2
      exact ih (loop i st) m1 m2
  obtain ⟨s1, s2, s3, s4, s5⟩ := hstart
  exact ⟨⟨s1, s2, s3, s4, s5⟩,
    key ins (setup d { globals with fanPin := fp, pumpPin := pp })
      (by simp [s1, s3]) (by simp [s2, s4])⟩

end CoolingAquarium
